import Mathlib

/-!
Verification of the `/execute` handler (`executeHandler`) of the cpp_go_server
repository, a sandboxed C++ code-execution endpoint.

The handler is embedded shallowly: every external effect the Go code performs
(JSON decoding of the request body, `os.MkdirTemp`, `os.WriteFile`,
`exec.CommandContext(...).Run()` together with the deadline context's state)
is an input supplied by an `ExecEnv` record, and the handler returns both the
HTTP response it writes and a `Trace` of the side effects it performed
(MkdirTemp calls, RemoveAll calls, file writes, subprocess runs).  The
control flow, string constants, status codes and argument lists are
transcribed from `executeHandler` in the source.
-/

namespace CppGoServer

/-- Request body of `/execute` (`CodePayload` in the source): a Go struct with
`Code string` and `Stdin string`; a JSON body omitting `stdin` decodes to the
zero value `""`. -/
structure CodePayload where
  code : String
  stdin : String
deriving Repr, DecidableEq

/-- Result of `runCmd.Run()` in Go: `nil`, a process-start error such as
`exec.Error` (binary not found, daemon unreachable — the process never ran),
or an `exec.ExitError` (the process ran and exited non-zero / was killed). -/
inductive RunErr where
  | ok
  | startError (msg : String)
  | exitError (exitCode : Nat) (msg : String)
deriving Repr, DecidableEq

/-- Observable outcome of the `docker run` subprocess: the error value from
`Run()`, the bytes captured in the stdout and stderr buffers, and whether
`ctx.Err() == context.DeadlineExceeded` holds when the handler checks it
after `Run()` returns. -/
structure RunResult where
  err : RunErr
  stdout : String
  stderr : String
  deadlineExceeded : Bool
deriving Repr, DecidableEq

/-- The environment of one `/execute` request: the request method, and the
results the outside world hands to each effectful call the handler makes. -/
structure ExecEnv where
  method : String
  decode : Except String CodePayload
  mkdirTemp : Except String String
  writeFile : Except String Unit
  run : RunResult

/-- A subprocess invocation: program, argument list, and the stdin stream
attached to it (`Option.none` when `runCmd.Stdin` is left nil). -/
structure Cmd where
  prog : String
  args : List String
  stdin : Option String
deriving Repr, DecidableEq

/-- One `os.WriteFile` call: destination path, contents, permission bits. -/
structure FileWrite where
  path : String
  contents : String
  perm : Nat
deriving Repr, DecidableEq

/-- Side effects performed by one handler invocation. -/
structure Trace where
  mkdirTempCalls : Nat
  removeAllCalls : List String
  writes : List FileWrite
  runs : List Cmd
deriving Repr, DecidableEq

/-- The trace of a handler run that performed no effects. -/
def Trace.empty : Trace := ⟨0, [], [], []⟩

/-- Body of the HTTP response: `errorText msg` is a `http.Error(w, msg, code)`
call (the Go helper writes `msg` followed by a newline as `text/plain`);
`jsonResult r esc` is `json.NewEncoder(w)` with `SetEscapeHTML(esc)` encoding
`ResultPayload{Result: r}`. -/
inductive RespBody where
  | errorText (msg : String)
  | jsonResult (result : String) (escapeHTML : Bool)
deriving Repr, DecidableEq

/-- HTTP status code plus body. -/
structure HttpResponse where
  status : Nat
  body : RespBody
deriving Repr, DecidableEq

/-- The shell line run inside the container (`compileAndRunScript` in the
source). -/
def compileAndRunScript : String :=
  "g++ -Wall /usr/src/app/main.cpp -o /usr/src/app/main.out && /usr/src/app/main.out"

/-- The exact `exec.CommandContext` built by the handler:
`docker run --rm -i --net=none -v <dir>:/usr/src/app gcc:latest sh -c <script>`,
with `runCmd.Stdin` set to a reader over the payload only when
`payload.Stdin != ""`. -/
def buildRunCmd (dir stdinPayload : String) : Cmd :=
  { prog := "docker"
    args := ["run", "--rm", "-i", "--net=none", "-v",
             dir ++ ":/usr/src/app", "gcc:latest", "sh", "-c",
             compileAndRunScript]
    stdin := if stdinPayload = "" then Option.none else Option.some stdinPayload }

/-- Outcome classification performed after `runCmd.Run()` returns
(source lines 79–101): `ctx.Err() == DeadlineExceeded` is checked first and
yields 504 with the fixed text; otherwise any non-nil error — start error and
exit error alike — yields 500 with `"Execution failed: " ++ stderr`;
otherwise the encoder writes 200 with the raw stdout, HTML escaping off. -/
def classify (res : RunResult) : HttpResponse :=
  if res.deadlineExceeded then
    ⟨504, RespBody.errorText "Execution timed out"⟩
  else
    match res.err with
    | RunErr.ok => ⟨200, RespBody.jsonResult res.stdout false⟩
    | RunErr.startError _ =>
        ⟨500, RespBody.errorText ("Execution failed: " ++ res.stderr)⟩
    | RunErr.exitError _ _ =>
        ⟨500, RespBody.errorText ("Execution failed: " ++ res.stderr)⟩

/-- Shallow embedding of `executeHandler` (source lines 23–102).  Mirrors the
Go control flow: method check; JSON decode; `os.MkdirTemp` with
`defer os.RemoveAll(dir)` scheduled immediately on success (so the removal is
recorded on every later exit path); `os.WriteFile(dir/main.cpp, code, 0666)`;
the single `docker run` under the 10-second context; classification. -/
def executeHandler (env : ExecEnv) : HttpResponse × Trace :=
  if env.method ≠ "POST" then
    (⟨405, RespBody.errorText "POST method only"⟩, Trace.empty)
  else
    match env.decode with
    | Except.error _ =>
        (⟨400, RespBody.errorText "Bad Request: Invalid JSON"⟩, Trace.empty)
    | Except.ok payload =>
      match env.mkdirTemp with
      | Except.error _ =>
          (⟨500, RespBody.errorText "Failed to create temp dir"⟩,
           ⟨1, [], [], []⟩)
      | Except.ok dir =>
        let write : FileWrite := ⟨dir ++ "/main.cpp", payload.code, 0o666⟩
        match env.writeFile with
        | Except.error _ =>
            (⟨500, RespBody.errorText "Failed to write to temp file"⟩,
             ⟨1, [dir], [write], []⟩)
        | Except.ok _ =>
            (classify env.run,
             ⟨1, [dir], [write], [buildRunCmd dir payload.stdin]⟩)

/-- Spec-side rendering of "restrictive permissions": a mode is restrictive
only if it grants no write permission to group or others.  Used to compare
the spec's words against the permission bits the source actually passes. -/
def specRestrictivePerm (p : Nat) : Bool := p &&& 0o022 == 0

end CppGoServer

namespace CppGoServer

/-! ### Concrete environments used as witnesses and counterexamples -/

/-- A request that times out: the process was killed, partial output sat in
the buffers, and the deadline context reports expiry. -/
def envTimeout : ExecEnv :=
  { method := "POST"
    decode := Except.ok ⟨"int main() while(1);", "x"⟩
    mkdirTemp := Except.ok "/tmp/cpp-execution-101"
    writeFile := Except.ok ()
    run := ⟨RunErr.exitError 137 "signal: killed", "partial out", "partial err", true⟩ }

/-- A request whose process finished cleanly (exit 0, output produced) but
whose deadline context had already expired when the handler checked it. -/
def envLateSuccess : ExecEnv :=
  { method := "POST"
    decode := Except.ok ⟨"int main();", ""⟩
    mkdirTemp := Except.ok "/tmp/cpp-execution-102"
    writeFile := Except.ok ()
    run := ⟨RunErr.ok, "done\n", "", true⟩ }

/-- A request where the docker binary is missing: `Run()` returns a
process-start error, nothing ran, both buffers are empty. -/
def envStartErr : ExecEnv :=
  { method := "POST"
    decode := Except.ok ⟨"int main();", ""⟩
    mkdirTemp := Except.ok "/tmp/cpp-execution-103"
    writeFile := Except.ok ()
    run := ⟨RunErr.startError "exec: docker: executable file not found in PATH",
            "", "", false⟩ }

/-- Same request, but the process started and exited non-zero with empty
stderr (e.g. killed externally before writing diagnostics). -/
def envExitErr : ExecEnv :=
  { envStartErr with
    run := ⟨RunErr.exitError 1 "exit status 1", "", "", false⟩ }

/-- A fully successful request with stdin attached. -/
def envSuccess : ExecEnv :=
  { method := "POST"
    decode := Except.ok ⟨"int main() return 0;", "5\n"⟩
    mkdirTemp := Except.ok "/tmp/cpp-execution-104"
    writeFile := Except.ok ()
    run := ⟨RunErr.ok, "5\n", "", false⟩ }

/-- A request whose body is malformed JSON. -/
def envBadJson : ExecEnv :=
  { method := "POST"
    decode := Except.error "invalid character"
    mkdirTemp := Except.ok "/tmp/cpp-execution-105"
    writeFile := Except.ok ()
    run := ⟨RunErr.ok, "", "", false⟩ }

/-- A request whose workspace allocation fails. -/
def envMkdirFail : ExecEnv :=
  { envBadJson with
    decode := Except.ok ⟨"int main();", ""⟩
    mkdirTemp := Except.error "no space left on device" }

/-- A request whose source-file write fails. -/
def envWriteFail : ExecEnv :=
  { envMkdirFail with
    mkdirTemp := Except.ok "/tmp/cpp-execution-106"
    writeFile := Except.error "disk full" }

/-- A successful request with empty stdin. -/
def envEmptyStdin : ExecEnv :=
  { envSuccess with
    decode := Except.ok ⟨"int main() return 0;", ""⟩
    mkdirTemp := Except.ok "/tmp/cpp-execution-107" }

/-! ### Claims -/

/-- C1: when the 10-second deadline has expired by the time the handler
classifies the outcome, the response is 504 with the fixed text
"Execution timed out" (written via `http.Error`), whatever `Run()`'s error
value and whatever partial stdout/stderr the buffers hold: the timeout check
comes first and the partial output is discarded. -/
theorem c1_timeout_precedence (env : ExecEnv) (payload : CodePayload)
    (dir : String) (hm : env.method = "POST")
    (hd : env.decode = Except.ok payload)
    (hmk : env.mkdirTemp = Except.ok dir)
    (hw : env.writeFile = Except.ok ())
    (ht : env.run.deadlineExceeded = true) :
    (executeHandler env).1 = ⟨504, RespBody.errorText "Execution timed out"⟩ := by
  simp [executeHandler, classify, hm, hd, hmk, hw, ht]

theorem c1_timeout_precedence_witness :
    (executeHandler envTimeout).1
      = ⟨504, RespBody.errorText "Execution timed out"⟩ :=
  c1_timeout_precedence envTimeout ⟨"int main() while(1);", "x"⟩
    "/tmp/cpp-execution-101" rfl rfl rfl rfl rfl

/-- C10: timeout classification does not require the process to have been
killed — even when `Run()` returned no error (clean exit, stdout produced),
an expired deadline context yields the 504 timeout response, never the 200
success response or the 500 failure response. -/
theorem c10_timeout_without_kill (env : ExecEnv) (payload : CodePayload)
    (dir : String) (hm : env.method = "POST")
    (hd : env.decode = Except.ok payload)
    (hmk : env.mkdirTemp = Except.ok dir)
    (hw : env.writeFile = Except.ok ())
    (he : env.run.err = RunErr.ok)
    (ht : env.run.deadlineExceeded = true) :
    (executeHandler env).1 = ⟨504, RespBody.errorText "Execution timed out"⟩
      ∧ (executeHandler env).1.status ≠ 200
      ∧ (executeHandler env).1.status ≠ 500 := by
  refine ⟨?_, ?_, ?_⟩ <;> simp [executeHandler, classify, hm, hd, hmk, hw, ht]

theorem c10_timeout_without_kill_witness :
    (executeHandler envLateSuccess).1
        = ⟨504, RespBody.errorText "Execution timed out"⟩
      ∧ (executeHandler envLateSuccess).1.status ≠ 200
      ∧ (executeHandler envLateSuccess).1.status ≠ 500 :=
  c10_timeout_without_kill envLateSuccess ⟨"int main();", ""⟩
    "/tmp/cpp-execution-102" rfl rfl rfl rfl rfl rfl

/-- C2: once JSON validation passes and `MkdirTemp` yields `dir`, every exit
path of the handler — write failure, timeout, execution failure, infra
failure, success — records exactly one `MkdirTemp` call and exactly one
`RemoveAll` call, on `dir` itself (the deferred removal scheduled at source
line 43), and every file write and bind mount in the trace refers only to
this request's own `dir`, so no workspace is reused. -/
theorem c2_workspace_lifecycle (env : ExecEnv) (payload : CodePayload)
    (dir : String) (hm : env.method = "POST")
    (hd : env.decode = Except.ok payload)
    (hmk : env.mkdirTemp = Except.ok dir) :
    (executeHandler env).2.mkdirTempCalls = 1
      ∧ (executeHandler env).2.removeAllCalls = [dir]
      ∧ (∀ w ∈ (executeHandler env).2.writes, w.path = dir ++ "/main.cpp")
      ∧ (∀ c ∈ (executeHandler env).2.runs,
          c.args.get? 5 = Option.some (dir ++ ":/usr/src/app")) := by
  cases hwf : env.writeFile with
  | error e =>
      refine ⟨?_, ?_, ?_, ?_⟩ <;>
        simp [executeHandler, hm, hd, hmk, hwf]
  | ok u =>
      refine ⟨?_, ?_, ?_, ?_⟩ <;>
        simp [executeHandler, buildRunCmd, hm, hd, hmk, hwf]

theorem c2_workspace_lifecycle_witness :
    (executeHandler envWriteFail).2.mkdirTempCalls = 1
      ∧ (executeHandler envWriteFail).2.removeAllCalls
          = ["/tmp/cpp-execution-106"]
      ∧ (∀ w ∈ (executeHandler envWriteFail).2.writes,
          w.path = "/tmp/cpp-execution-106" ++ "/main.cpp")
      ∧ (∀ c ∈ (executeHandler envWriteFail).2.runs,
          c.args.get? 5
            = Option.some ("/tmp/cpp-execution-106" ++ ":/usr/src/app")) :=
  c2_workspace_lifecycle envWriteFail ⟨"int main();", ""⟩
    "/tmp/cpp-execution-106" rfl rfl rfl

end CppGoServer

namespace CppGoServer

/-- C3 counterexample: the handler does NOT distinguish a process-start
failure from a process-exit failure.  On the concrete request where the
docker binary is unreachable (`Run()` returns a start error, stderr empty),
the response is exactly the stderr-echoing `"Execution failed: " ++ stderr`
500 response — the ExecutionFailure shape — and is byte-for-byte identical
to the response for the same request with a process-exit error: both flow
through the single `if err != nil` branch at source line 89. -/
theorem c3_counterexample :
    (executeHandler envStartErr).1
        = ⟨500, RespBody.errorText ("Execution failed: " ++ envStartErr.run.stderr)⟩
      ∧ (executeHandler envStartErr).1 = (executeHandler envExitErr).1 := by
  constructor <;> rfl

/-- C3 amended: for every request reaching execution whose deadline has not
expired, a process-start error (docker binary/daemon unreachable) is handled
by the same branch as a process-exit error and yields the 500 response
`"Execution failed: " ++ stderr` — the handler makes no
EngineUnavailable/InfraError distinction, and the body echoes the (empty)
stderr buffer exactly as the ExecutionFailure response does. -/
theorem c3_amended_no_distinction (env : ExecEnv) (payload : CodePayload)
    (dir msg : String) (hm : env.method = "POST")
    (hd : env.decode = Except.ok payload)
    (hmk : env.mkdirTemp = Except.ok dir)
    (hw : env.writeFile = Except.ok ())
    (ht : env.run.deadlineExceeded = false)
    (he : env.run.err = RunErr.startError msg) :
    (executeHandler env).1
      = ⟨500, RespBody.errorText ("Execution failed: " ++ env.run.stderr)⟩ := by
  simp [executeHandler, classify, hm, hd, hmk, hw, ht, he]

theorem c3_amended_no_distinction_witness :
    (executeHandler envStartErr).1
      = ⟨500, RespBody.errorText
          ("Execution failed: " ++ envStartErr.run.stderr)⟩ :=
  c3_amended_no_distinction envStartErr ⟨"int main();", ""⟩
    "/tmp/cpp-execution-103"
    "exec: docker: executable file not found in PATH" rfl rfl rfl rfl rfl rfl

/-- C4: every request that reaches execution runs exactly one subprocess, of
the fixed shape
`docker run --rm -i --net=none -v <dir>:/usr/src/app gcc:latest sh -c
"g++ -Wall ... && .../main.out"`, with stdin attached exactly when the
payload's stdin is nonempty. -/
theorem c4_docker_command_shape (env : ExecEnv) (payload : CodePayload)
    (dir : String) (hm : env.method = "POST")
    (hd : env.decode = Except.ok payload)
    (hmk : env.mkdirTemp = Except.ok dir)
    (hw : env.writeFile = Except.ok ()) :
    (executeHandler env).2.runs
      = [{ prog := "docker"
           args := ["run", "--rm", "-i", "--net=none", "-v",
                    dir ++ ":/usr/src/app", "gcc:latest", "sh", "-c",
                    compileAndRunScript]
           stdin := if payload.stdin = "" then Option.none
                    else Option.some payload.stdin }] := by
  simp [executeHandler, buildRunCmd, hm, hd, hmk, hw]

theorem c4_docker_command_shape_witness :
    (executeHandler envSuccess).2.runs
      = [{ prog := "docker"
           args := ["run", "--rm", "-i", "--net=none", "-v",
                    "/tmp/cpp-execution-104" ++ ":/usr/src/app",
                    "gcc:latest", "sh", "-c", compileAndRunScript]
           stdin := if ("5\n" : String) = "" then Option.none
                    else Option.some "5\n" }] :=
  c4_docker_command_shape envSuccess ⟨"int main() return 0;", "5\n"⟩
    "/tmp/cpp-execution-104" rfl rfl rfl rfl

/-- C5: validation and resource errors fail fast.  Malformed JSON yields 400
with "Bad Request: Invalid JSON" and a completely empty effect trace (no
workspace created, no write, no container); a workspace-creation failure or
a source-write failure yields a 500 error response with no subprocess ever
started. -/
theorem c5_fail_fast (env : ExecEnv) (hm : env.method = "POST") :
    (∀ e, env.decode = Except.error e →
        (executeHandler env).1
            = ⟨400, RespBody.errorText "Bad Request: Invalid JSON"⟩
          ∧ (executeHandler env).2 = Trace.empty)
      ∧ (∀ payload e, env.decode = Except.ok payload →
          env.mkdirTemp = Except.error e →
            (executeHandler env).1
                = ⟨500, RespBody.errorText "Failed to create temp dir"⟩
              ∧ (executeHandler env).2.runs = [])
      ∧ (∀ payload dir e, env.decode = Except.ok payload →
          env.mkdirTemp = Except.ok dir →
          env.writeFile = Except.error e →
            (executeHandler env).1
                = ⟨500, RespBody.errorText "Failed to write to temp file"⟩
              ∧ (executeHandler env).2.runs = []) := by
  refine ⟨?_, ?_, ?_⟩
  · intro e hd
    simp [executeHandler, hm, hd, Trace.empty]
  · intro payload e hd hmk
    simp [executeHandler, hm, hd, hmk]
  · intro payload dir e hd hmk hwf
    simp [executeHandler, hm, hd, hmk, hwf]

theorem c5_fail_fast_witness :
    (executeHandler envBadJson).1
        = ⟨400, RespBody.errorText "Bad Request: Invalid JSON"⟩
      ∧ (executeHandler envBadJson).2 = Trace.empty :=
  (c5_fail_fast envBadJson rfl).1 "invalid character" rfl

end CppGoServer

namespace CppGoServer

/-- C6 counterexample: on a concrete successful request the one file write
the handler performs carries permission bits 0o666 — group- and
world-writable — which is not a restrictive mode: the claim's "restrictive
permissions" fails on the 0666 the source passes to `os.WriteFile`
(line 47). -/
theorem c6_counterexample :
    (executeHandler envSuccess).2.writes
        = [⟨"/tmp/cpp-execution-104" ++ "/main.cpp",
            "int main() return 0;", 0o666⟩]
      ∧ specRestrictivePerm 0o666 = false := by
  constructor <;> rfl

/-- C6 amended: for every request whose workspace was created, the submitted
source text is persisted byte-for-byte verbatim (no validation or
transformation) to the fixed filename `main.cpp` inside the workspace — but
the file is created with permission bits 0o666 (world-readable and
world-writable before umask), not restrictive permissions. -/
theorem c6_amended_verbatim_0666 (env : ExecEnv) (payload : CodePayload)
    (dir : String) (hm : env.method = "POST")
    (hd : env.decode = Except.ok payload)
    (hmk : env.mkdirTemp = Except.ok dir) :
    (executeHandler env).2.writes
        = [⟨dir ++ "/main.cpp", payload.code, 0o666⟩]
      ∧ specRestrictivePerm 0o666 = false := by
  cases hwf : env.writeFile with
  | error e =>
      exact ⟨by simp [executeHandler, hm, hd, hmk, hwf], rfl⟩
  | ok u =>
      exact ⟨by simp [executeHandler, hm, hd, hmk, hwf], rfl⟩

theorem c6_amended_verbatim_0666_witness :
    (executeHandler envSuccess).2.writes
        = [⟨"/tmp/cpp-execution-104" ++ "/main.cpp",
            "int main() return 0;", 0o666⟩]
      ∧ specRestrictivePerm 0o666 = false :=
  c6_amended_verbatim_0666 envSuccess ⟨"int main() return 0;", "5\n"⟩
    "/tmp/cpp-execution-104" rfl rfl rfl

/-- C7: the stdin payload is never written to disk.  On every path of every
request, each file the handler writes is the single source file
`<dir>/main.cpp` holding the submitted code, and when the payload's stdin is
nonempty it is streamed directly to the subprocess's standard input (it
appears as the run command's stdin stream, not as a file write). -/
theorem c7_stdin_never_on_disk (env : ExecEnv) (payload : CodePayload)
    (dir : String) (hm : env.method = "POST")
    (hd : env.decode = Except.ok payload)
    (hmk : env.mkdirTemp = Except.ok dir) :
    (∀ w ∈ (executeHandler env).2.writes,
        w.path = dir ++ "/main.cpp" ∧ w.contents = payload.code)
      ∧ (payload.stdin ≠ "" →
          ∀ c ∈ (executeHandler env).2.runs,
            c.stdin = Option.some payload.stdin) := by
  cases hwf : env.writeFile with
  | error e =>
      refine ⟨?_, ?_⟩ <;> simp [executeHandler, hm, hd, hmk, hwf]
  | ok u =>
      refine ⟨?_, ?_⟩ <;>
        simp [executeHandler, buildRunCmd, hm, hd, hmk, hwf]

theorem c7_stdin_never_on_disk_witness :
    (∀ w ∈ (executeHandler envSuccess).2.writes,
        w.path = "/tmp/cpp-execution-104" ++ "/main.cpp"
          ∧ w.contents = "int main() return 0;")
      ∧ (("5\n" : String) ≠ "" →
          ∀ c ∈ (executeHandler envSuccess).2.runs,
            c.stdin = Option.some "5\n") :=
  c7_stdin_never_on_disk envSuccess ⟨"int main() return 0;", "5\n"⟩
    "/tmp/cpp-execution-104" rfl rfl rfl

/-- C8: every execution that completes within the deadline with a nil error
gets the 200 response whose body is the JSON object with `result` set to the
captured stdout bytes exactly, encoded with `SetEscapeHTML(false)` — no HTML
escaping or other alteration of the program's output. -/
theorem c8_success_raw_stdout (env : ExecEnv) (payload : CodePayload)
    (dir : String) (hm : env.method = "POST")
    (hd : env.decode = Except.ok payload)
    (hmk : env.mkdirTemp = Except.ok dir)
    (hw : env.writeFile = Except.ok ())
    (ht : env.run.deadlineExceeded = false)
    (he : env.run.err = RunErr.ok) :
    (executeHandler env).1
      = ⟨200, RespBody.jsonResult env.run.stdout false⟩ := by
  simp [executeHandler, classify, hm, hd, hmk, hw, ht, he]

theorem c8_success_raw_stdout_witness :
    (executeHandler envSuccess).1
      = ⟨200, RespBody.jsonResult envSuccess.run.stdout false⟩ :=
  c8_success_raw_stdout envSuccess ⟨"int main() return 0;", "5\n"⟩
    "/tmp/cpp-execution-104" rfl rfl rfl rfl rfl rfl

/-- C9: an empty stdin is indistinguishable from an absent one.  Go's JSON
decoder maps an omitted `stdin` field to the zero value `""`, and for every
request whose decoded stdin is `""`, the guard `payload.Stdin != ""` leaves
`runCmd.Stdin` nil, so no standard-input stream is attached to the sandbox
process at all. -/
theorem c9_empty_stdin_not_attached (env : ExecEnv) (payload : CodePayload)
    (dir : String) (hm : env.method = "POST")
    (hd : env.decode = Except.ok payload)
    (hmk : env.mkdirTemp = Except.ok dir)
    (hw : env.writeFile = Except.ok ())
    (hs : payload.stdin = "") :
    ∀ c ∈ (executeHandler env).2.runs, c.stdin = Option.none := by
  simp [executeHandler, buildRunCmd, hm, hd, hmk, hw, hs]

theorem c9_empty_stdin_not_attached_witness :
    (buildRunCmd "/tmp/cpp-execution-107" "").stdin = Option.none :=
  c9_empty_stdin_not_attached envEmptyStdin ⟨"int main() return 0;", ""⟩
    "/tmp/cpp-execution-107" rfl rfl rfl rfl rfl
    (buildRunCmd "/tmp/cpp-execution-107" "")
    (by simp [executeHandler, envEmptyStdin, envSuccess])

end CppGoServer
